import Mathlib

/-!
# Verification of the arithmetic-expression core (validator + evaluator)

Shallow embedding of `src/utils/validators.py` and
`src/utils/calculator_core.py`.

Modelling conventions:

* A Python `str` is modelled as `List Char` (`pyStr` converts a Lean string
  literal).  The regex character classes `\d` and `\s` are modelled by their
  ASCII meaning (`'0'..'9'` and the six ASCII whitespace characters); the
  claims and the repository only exercise ASCII input.
* Python `float` values are modelled as exact rationals `ℚ`.  The spec
  (§4.2) allows "floating-point (or arbitrary-precision decimal) arithmetic",
  and every concrete input appearing in the claims is exactly representable,
  so the rational model and IEEE doubles agree on them.  `round(x, 10)` is
  modelled as round-half-to-even at 10 fractional digits, which is Python's
  documented behaviour.
* Fallible Python code returns `Except`/`Option`: a raised exception is an
  `error`/`none` value, and `try/except` is a `match` on it.
-/

namespace Calc

/-- ASCII whitespace, the characters matched by the regex class `\s`
(and stripped by `str.strip`) on ASCII input. -/
def isWs (c : Char) : Bool :=
  c = ' ' || c = '\t' || c = '\n' || c = '\r' || c = '\x0b' || c = '\x0c'

/-- The regex class `\d` on ASCII input. -/
def isDigit (c : Char) : Bool :=
  '0' ≤ c && c ≤ '9'

/-- One character of the whitelist regex `[\d+\-*/.()\s]` used both by
`validate_expression` (validators.py line 12) and by `Calculator._safe_eval`
(calculator_core.py line 49). -/
def isExprChar (c : Char) : Bool :=
  isDigit c || c = '+' || c = '-' || c = '*' || c = '/' ||
    c = '.' || c = '(' || c = ')' || isWs c

/-- `re.match(r'^[\d+\-*/.()\s]+$', s)` succeeds iff `s` is nonempty and all
its characters are in the whitelist.  (`$` may also match before a final
newline, but `\n` is itself in the whitelist, so that rule adds nothing.) -/
def charCheckOk (l : List Char) : Bool :=
  !l.isEmpty && l.all isExprChar

/-- `str.strip()`: drop leading whitespace. -/
def dropLeadWs (l : List Char) : List Char :=
  l.dropWhile isWs

/-- `str.strip()`: drop trailing whitespace. -/
def dropTrailWs (l : List Char) : List Char :=
  (l.reverse.dropWhile isWs).reverse

/-- `expression.strip()` (validators.py line 9). -/
def pyStrip (l : List Char) : List Char :=
  dropTrailWs (dropLeadWs l)

/-- `expression.replace(' ', '')` (validators.py line 24,
calculator_core.py line 17): removes space characters only, no other
whitespace. -/
def removeSpaces (l : List Char) : List Char :=
  l.filter (fun c => !(c = ' '))

/-- An operator character of the class `[+\-*/]`. -/
def isOpChar (c : Char) : Bool :=
  c = '+' || c = '-' || c = '*' || c = '/'

/-- An operator character of the class `[+\*/]` (note: no `-`), the first
alternative of the consecutive-operator regex in `_has_invalid_syntax`. -/
def isOpPSS (c : Char) : Bool :=
  c = '+' || c = '*' || c = '/'

/-- After a leading `--`, does some continuation of the run of `-` end just
before a digit?  This realises the backtracking of `-{2,}(?=\d)`: the run may
be extended one `-` at a time, and the lookahead asks for a digit. -/
def minusRunThenDigit : List Char → Bool
  | [] => false
  | c :: rest => isDigit c || (c = '-' && minusRunThenDigit rest)

/-- Does one of the three alternatives of the regex
`[+\*/]{2,}|--+(?!\d)|-{2,}(?=\d)` match starting at the head of `l`?

* `[+\*/]{2,}` matches iff the first two characters are both in `[+\*/]`
  (taking exactly two characters always suffices for `re.search`).
* `--+(?!\d)` matches iff the first two characters are `-` and the third
  (if any) is not a digit: if the third is another `-`, the two-character
  match already satisfies the negative lookahead, since `-` is not a digit.
* `-{2,}(?=\d)` matches iff the first two characters are `-` and the run of
  `-` continues up to a digit. -/
def altsAt : List Char → Bool
  | c1 :: c2 :: rest =>
      (isOpPSS c1 && isOpPSS c2) ||
      (c1 = '-' && c2 = '-' &&
        (match rest with
         | [] => true
         | c3 :: _ => !isDigit c3)) ||
      (c1 = '-' && c2 = '-' && minusRunThenDigit rest)
  | _ => false

/-- `re.search(r'[+\*/]{2,}|--+(?!\d)|-{2,}(?=\d)', s)` (validators.py
line 27-28): does some alternative match at some position? -/
def opRunBad : List Char → Bool
  | [] => false
  | c :: rest => altsAt (c :: rest) || opRunBad rest

/-- `re.search(r'\d*\.\d*\.\d*', s)` (validators.py line 36-37): two dots
with only digits between them occur somewhere (the `\d*` parts may be
empty). -/
def decimalBad : List Char → Bool
  | [] => false
  | c :: rest =>
      (c = '.' &&
        (match rest.dropWhile isDigit with
         | '.' :: _ => true
         | _ => false)) ||
      decimalBad rest

/-- `_has_invalid_syntax` (validators.py lines 21-44), exception-transparent:
`none` models the `IndexError` that `expression[0]` / `expression[-1]`
(line 32) would raise on an empty string.  The space-removal, the
consecutive-operator regex, the first/last-character check, the
multiple-decimal-point regex and the parenthesis count are translated in the
source's order. -/
def hasInvalidShape (l : List Char) : Option Bool :=
  let e := removeSpaces l
  if opRunBad e then some true
  else
    match e.head?, e.getLast? with
    | some c0, some cl =>
        if isOpPSS c0 || isOpChar cl then some true
        else if decimalBad e then some true
        else if e.count '(' ≠ e.count ')' then some true
        else some false
    | _, _ => none

/-- `validate_expression` (validators.py lines 3-19), exception-transparent
(`none` models an uncaught exception; the totality theorem shows it never
occurs).  `if not expression` is the Python truthiness test: false exactly
on the empty string.  The character check runs on the stripped string. -/
def validate_expression (l : List Char) : Option Bool :=
  if l.isEmpty then some false
  else
    let e := pyStrip l
    if !charCheckOk e then some false
    else
      match hasInvalidShape e with
      | some true => some false
      | some false => some true
      | none => none

/-- `validate_expression` on a string-or-None input: the
`not isinstance(expression, str)` guard (validators.py line 5) returns
`False` on a non-string value before anything else runs. -/
def validateAny : Option (List Char) → Option Bool
  | none => some false
  | some l => validate_expression l

/-- The total Boolean view of the validator, justified by the totality
theorem below (the `none` branch is unreachable). -/
def validate (l : List Char) : Bool :=
  (validate_expression l).getD false

/-- Convert a Lean string literal to the `List Char` model of a Python str. -/
def pyStr (s : String) : List Char :=
  s.toList

/-! ## Values and errors of the evaluator -/

/-- A Python value producible by evaluating an expression over the whitelist
charset `[\d+\-*/.()\s]`: an `int`, a `float` (modelled as an exact rational),
or the empty tuple `()` (the only tuple formable without commas — tuple
concatenation `()+()` and repetition `()*n` again yield `()`).
Python can in corner cases also produce a `complex` (a negative base raised
to a non-integral power); the model reports those as the error
`PyErr.unrepresentable` instead, which the blanket handler of `_safe_eval`
makes indistinguishable from any other evaluation failure. -/
inductive PyVal where
  | vint (n : ℤ)
  | vfloat (q : ℚ)
  | vtuple
  deriving DecidableEq

/-- Is the value an `int` or a `float` (as opposed to a tuple)? -/
def PyVal.isNumeric : PyVal → Bool
  | .vtuple => false
  | _ => true

/-- The numeric view of a value, for operators defined on numbers only. -/
def PyVal.numQ : PyVal → Option ℚ
  | .vint n => some (n : ℚ)
  | .vfloat q => some q
  | .vtuple => none

/-- An exception raised inside `eval`: a compile failure, a `TypeError`,
a `ZeroDivisionError`, or a result outside the rational value model
(irrational or complex powers — see `PyVal`).  `_safe_eval`'s bare
`except:` catches every one of these alike. -/
inductive PyErr where
  | parseErr
  | typeErr
  | zeroDivErr
  | unrepresentable
  deriving DecidableEq

/-- The exceptions `Calculator.evaluate` lets escape: `ValueError("Empty
expression")`, `ValueError("Unsupported operator: ...")`,
`ZeroDivisionError`, `ValueError("Expression contains invalid characters")`
and `ValueError("Invalid expression format")` (the last two raised by
`_safe_eval`). -/
inductive EvalError where
  | emptyExpression
  | unsupportedOperator (op : Char)
  | divisionByZero
  | invalidChars
  | invalidFormat
  deriving DecidableEq

/-- The four-kind error taxonomy of the spec (§7): `InvalidFormat` covers
both the invalid-character and the malformed-format `ValueError`. -/
inductive ErrKind where
  | emptyExpression
  | unsupportedOperator
  | divisionByZero
  | invalidFormat
  deriving DecidableEq

/-- Map each concrete error onto its taxonomy kind. -/
def EvalError.kind : EvalError → ErrKind
  | .emptyExpression => .emptyExpression
  | .unsupportedOperator _ => .unsupportedOperator
  | .divisionByZero => .divisionByZero
  | .invalidChars => .invalidFormat
  | .invalidFormat => .invalidFormat

/-! ## Numeric literals and result formatting -/

/-- Value of a digit string as a natural number. -/
def digitsVal (l : List Char) : ℕ :=
  l.foldl (fun a c => 10 * a + (c.toNat - '0'.toNat)) 0

/-- Does `l` match the whole of `\d*\.?\d+` (a fast-path operand): digits
with at most one decimal point, ending in a digit, at least one digit? -/
def isNumLit (l : List Char) : Bool :=
  let d1 := l.takeWhile isDigit
  match l.dropWhile isDigit with
  | [] => !d1.isEmpty
  | '.' :: r2 => !r2.isEmpty && r2.all isDigit
  | _ => false

/-- `float(s)` on a fast-path operand, exactly: the rational value of
`digits [. digits]`. -/
def numLitVal (l : List Char) : ℚ :=
  let d1 := l.takeWhile isDigit
  match l.dropWhile isDigit with
  | '.' :: r2 => (digitsVal d1 : ℚ) + (digitsVal r2 : ℚ) / (10 : ℚ) ^ r2.length
  | _ => (digitsVal d1 : ℚ)

/-- Round-half-to-even to the nearest integer. -/
def roundHalfEven (q : ℚ) : ℤ :=
  let f := ⌊q⌋
  let r := q - f
  if r < 1 / 2 then f
  else if 1 / 2 < r then f + 1
  else if f % 2 = 0 then f else f + 1

/-- Python `round(x, 10)`: round-half-to-even at the tenth fractional
digit. -/
def pyRound10 (q : ℚ) : ℚ :=
  (roundHalfEven (q * 10 ^ 10) : ℚ) / 10 ^ 10

/-- calculator_core.py line 41:
`int(result) if result.is_integer() else round(result, 10)`. -/
def formatResult (v : ℚ) : PyVal :=
  if v.den = 1 then .vint v.num else .vfloat (pyRound10 v)

/-- `self.operators[op]` (calculator_core.py lines 7-12) applied to the two
operands. -/
def applyFastOp (op : Char) (x y : ℚ) : ℚ :=
  if op = '+' then x + y
  else if op = '-' then x - y
  else if op = '*' then x * y
  else x / y

/-! ## The fast-path pattern

`re.match(r'^(\d*\.?\d+)\s*([+\-*/])\s*(\d*\.?\d+)$', s)`.

A string of this shape is `A ++ W1 ++ [op] ++ W2 ++ B` with `A`, `B`
matching `\d*\.?\d+` (so containing no operator and no whitespace
characters) and `W1`, `W2` runs of whitespace.  Such a string contains
exactly one operator character, so the decomposition — hence the regex's
group assignment — is unique: `A` is the part before the operator with
trailing whitespace removed, `B` the part after it with leading whitespace
removed.  Conversely a string with zero or several operator characters
cannot match.  Python's `$` also accepts a match ending just before a
single final newline; `fastMatch` adds that case. -/

/-- The fast-path pattern anchored at both real ends of the string. -/
def coreMatch (l : List Char) : Option (List Char × Char × List Char) :=
  match l.filter isOpChar with
  | [op] =>
      let i := l.findIdx isOpChar
      let a := dropTrailWs (l.take i)
      let b := dropLeadWs (l.drop (i + 1))
      if isNumLit a && isNumLit b then some (a, op, b) else none
  | _ => none

/-- The fast-path pattern with Python's `$`-before-final-newline rule
(calculator_core.py lines 24-25). -/
def fastMatch (l : List Char) : Option (List Char × Char × List Char) :=
  match coreMatch l with
  | some r => some r
  | none =>
      match l.getLast? with
      | some '\n' => coreMatch l.dropLast
      | _ => none

/-! ## The general path: a model of Python `eval` on the whitelist charset

With only `0-9 + - * / . ( )` and whitespace available, an expression can
contain numeric literals, unary `+`/`-`, the binary operators `+ - * / // **`
(`//` and `**` arise from adjacent `/` and `*`), parenthesised
subexpressions, the empty tuple `()`, and call syntax `f(x)` (which always
fails at run time, no value over this charset being callable).  The model
below tokenizes and parses by recursive descent following Python's
expression grammar and evaluates as it parses.  Python compiles the whole
expression before running it, so on a string with both a syntax error and a
runtime error the two differ in which error is raised — but `_safe_eval`'s
bare `except:` collapses every failure to the same `ValueError`, so the
difference is unobservable.  Python's tokenizer also rejects a newline
outside parentheses in `eval` mode; the model treats all whitespace as
insignificant, a divergence only for inputs whose failure would again be
collapsed by the blanket handler. -/

/-- A token of the restricted expression language. -/
inductive Tok where
  | num (v : PyVal)
  | plus
  | minus
  | star
  | slash
  | dstar
  | dslash
  | lpar
  | rpar
  deriving DecidableEq

/-- Python 3 rejects decimal integer literals with leading zeros unless the
literal is all zeros: `0`, `00` are fine, `01`, `007` are syntax errors.
(Float literals have no such restriction.) -/
def badIntLit (d : List Char) : Bool :=
  match d with
  | '0' :: rest => rest.any (fun c => !(c = '0'))
  | _ => false

/-- Tokenizer (fuel-indexed; the fuel `length + 1` never runs out since each
step consumes at least one character). -/
def tokenize : ℕ → List Char → Except PyErr (List Tok)
  | 0, _ => .error .parseErr
  | _ + 1, [] => .ok []
  | n + 1, c :: cs =>
    if isWs c then tokenize n cs
    else if c = '(' then (tokenize n cs).map (Tok.lpar :: ·)
    else if c = ')' then (tokenize n cs).map (Tok.rpar :: ·)
    else if c = '+' then (tokenize n cs).map (Tok.plus :: ·)
    else if c = '-' then (tokenize n cs).map (Tok.minus :: ·)
    else if c = '*' then
      match cs with
      | '*' :: cs' => (tokenize n cs').map (Tok.dstar :: ·)
      | _ => (tokenize n cs).map (Tok.star :: ·)
    else if c = '/' then
      match cs with
      | '/' :: cs' => (tokenize n cs').map (Tok.dslash :: ·)
      | _ => (tokenize n cs).map (Tok.slash :: ·)
    else if isDigit c then
      let d1 := (c :: cs).takeWhile isDigit
      match (c :: cs).dropWhile isDigit with
      | '.' :: rest2 =>
          let d2 := rest2.takeWhile isDigit
          (tokenize n (rest2.dropWhile isDigit)).map
            (Tok.num (.vfloat ((digitsVal d1 : ℚ) +
              (digitsVal d2 : ℚ) / (10 : ℚ) ^ d2.length)) :: ·)
      | rest =>
          if badIntLit d1 then .error .parseErr
          else (tokenize n rest).map (Tok.num (.vint (digitsVal d1)) :: ·)
    else if c = '.' then
      match cs with
      | c2 :: _ =>
          if isDigit c2 then
            let d2 := cs.takeWhile isDigit
            (tokenize n (cs.dropWhile isDigit)).map
              (Tok.num (.vfloat ((digitsVal d2 : ℚ) / (10 : ℚ) ^ d2.length)) :: ·)
          else .error .parseErr
      | [] => .error .parseErr
    else .error .parseErr

/-- Python `+` on values: numbers add (an operand `float` makes the result
`float`); tuples concatenate (`() + ()` is `()`); mixing raises
`TypeError`. -/
def pyAdd : PyVal → PyVal → Except PyErr PyVal
  | .vint a, .vint b => .ok (.vint (a + b))
  | .vint a, .vfloat b => .ok (.vfloat ((a : ℚ) + b))
  | .vfloat a, .vint b => .ok (.vfloat (a + (b : ℚ)))
  | .vfloat a, .vfloat b => .ok (.vfloat (a + b))
  | .vtuple, .vtuple => .ok .vtuple
  | _, _ => .error .typeErr

/-- Python binary `-` on values: numbers only. -/
def pySub : PyVal → PyVal → Except PyErr PyVal
  | .vint a, .vint b => .ok (.vint (a - b))
  | .vint a, .vfloat b => .ok (.vfloat ((a : ℚ) - b))
  | .vfloat a, .vint b => .ok (.vfloat (a - (b : ℚ)))
  | .vfloat a, .vfloat b => .ok (.vfloat (a - b))
  | _, _ => .error .typeErr

/-- Python `*` on values: numbers multiply; a tuple times an `int` (either
order) repeats — the empty tuple stays empty; a tuple times a `float`
raises `TypeError`. -/
def pyMul : PyVal → PyVal → Except PyErr PyVal
  | .vint a, .vint b => .ok (.vint (a * b))
  | .vint a, .vfloat b => .ok (.vfloat ((a : ℚ) * b))
  | .vfloat a, .vint b => .ok (.vfloat (a * (b : ℚ)))
  | .vfloat a, .vfloat b => .ok (.vfloat (a * b))
  | .vtuple, .vint _ => .ok .vtuple
  | .vint _, .vtuple => .ok .vtuple
  | _, _ => .error .typeErr

/-- Python `/` (true division): always a `float`; zero divisor raises
`ZeroDivisionError`. -/
def pyDiv (x y : PyVal) : Except PyErr PyVal :=
  match x.numQ, y.numQ with
  | some a, some b =>
      if b = 0 then .error .zeroDivErr else .ok (.vfloat (a / b))
  | _, _ => .error .typeErr

/-- Python `//` (floor division): `int // int` is an `int`; a `float`
operand makes a `float` with the floored value. -/
def pyFloorDiv : PyVal → PyVal → Except PyErr PyVal
  | .vint a, .vint b =>
      if b = 0 then .error .zeroDivErr else .ok (.vint (Int.fdiv a b))
  | x, y =>
      match x.numQ, y.numQ with
      | some a, some b =>
          if b = 0 then .error .zeroDivErr
          else .ok (.vfloat ((⌊a / b⌋ : ℤ) : ℚ))
      | _, _ => .error .typeErr

/-- Python `**`: `int ** nonnegative int` is an `int`; a negative integer
exponent gives a `float` (`0` base raising `ZeroDivisionError`); a
non-integral exponent would give an irrational or complex result, outside
the rational value model (`unrepresentable` — see `PyVal`). -/
def pyPow : PyVal → PyVal → Except PyErr PyVal
  | .vint a, .vint b =>
      if 0 ≤ b then .ok (.vint (a ^ b.toNat))
      else if a = 0 then .error .zeroDivErr
      else .ok (.vfloat ((a : ℚ) ^ b))
  | x, y =>
      match x.numQ, y.numQ with
      | some a, some b =>
          if b.den = 1 then
            if a = 0 && b < 0 then .error .zeroDivErr
            else .ok (.vfloat (a ^ b.num))
          else .error .unrepresentable
      | _, _ => .error .typeErr

/-- Python unary `-`: numbers only. -/
def pyNeg : PyVal → Except PyErr PyVal
  | .vint a => .ok (.vint (-a))
  | .vfloat a => .ok (.vfloat (-a))
  | .vtuple => .error .typeErr

/-- Python unary `+`: numbers only (`+()` raises `TypeError`). -/
def pyPos : PyVal → Except PyErr PyVal
  | .vtuple => .error .typeErr
  | v => .ok v

mutual

/-- `a_expr := term (('+'|'-') term)*`, evaluated left to right. -/
def parseAExpr : ℕ → List Tok → Except PyErr (PyVal × List Tok)
  | 0, _ => .error .parseErr
  | n + 1, ts => do
      let (v, ts1) ← parseTerm n ts
      parseAExprRest n v ts1

/-- The `(('+'|'-') term)*` loop carrying the value accumulated so far. -/
def parseAExprRest : ℕ → PyVal → List Tok → Except PyErr (PyVal × List Tok)
  | 0, _, _ => .error .parseErr
  | n + 1, v, ts =>
      match ts with
      | .plus :: ts1 => do
          let (w, ts2) ← parseTerm n ts1
          let r ← pyAdd v w
          parseAExprRest n r ts2
      | .minus :: ts1 => do
          let (w, ts2) ← parseTerm n ts1
          let r ← pySub v w
          parseAExprRest n r ts2
      | _ => .ok (v, ts)

/-- `term := factor (('*'|'/'|'//') factor)*`, evaluated left to right. -/
def parseTerm : ℕ → List Tok → Except PyErr (PyVal × List Tok)
  | 0, _ => .error .parseErr
  | n + 1, ts => do
      let (v, ts1) ← parseFactor n ts
      parseTermRest n v ts1

/-- The `(('*'|'/'|'//') factor)*` loop. -/
def parseTermRest : ℕ → PyVal → List Tok → Except PyErr (PyVal × List Tok)
  | 0, _, _ => .error .parseErr
  | n + 1, v, ts =>
      match ts with
      | .star :: ts1 => do
          let (w, ts2) ← parseFactor n ts1
          let r ← pyMul v w
          parseTermRest n r ts2
      | .slash :: ts1 => do
          let (w, ts2) ← parseFactor n ts1
          let r ← pyDiv v w
          parseTermRest n r ts2
      | .dslash :: ts1 => do
          let (w, ts2) ← parseFactor n ts1
          let r ← pyFloorDiv v w
          parseTermRest n r ts2
      | _ => .ok (v, ts)

/-- `factor := ('+'|'-') factor | power` (unary sign). -/
def parseFactor : ℕ → List Tok → Except PyErr (PyVal × List Tok)
  | 0, _ => .error .parseErr
  | n + 1, .plus :: ts1 => do
      let (v, ts2) ← parseFactor n ts1
      let r ← pyPos v
      .ok (r, ts2)
  | n + 1, .minus :: ts1 => do
      let (v, ts2) ← parseFactor n ts1
      let r ← pyNeg v
      .ok (r, ts2)
  | n + 1, ts => parsePower n ts

/-- `power := primary ['**' factor]` (the exponent may carry a unary sign;
`**` is right-associative and binds tighter than a unary sign on its
left). -/
def parsePower : ℕ → List Tok → Except PyErr (PyVal × List Tok)
  | 0, _ => .error .parseErr
  | n + 1, ts => do
      let (b, ts1) ← parsePrimary n ts
      match ts1 with
      | .dstar :: ts2 => do
          let (e, ts3) ← parseFactor n ts2
          let r ← pyPow b e
          .ok (r, ts3)
      | _ => .ok (b, ts1)

/-- `primary := atom trailer*` where a trailer is a call `(...)`. -/
def parsePrimary : ℕ → List Tok → Except PyErr (PyVal × List Tok)
  | 0, _ => .error .parseErr
  | n + 1, ts => do
      let (a, ts1) ← parseAtom n ts
      parseTrailers n a ts1

/-- Call trailers: no value over this charset is callable, so a
syntactically well-formed call raises `TypeError` (Python evaluates the
argument first; any failure there takes precedence, which the model
reproduces by parsing the argument before failing). -/
def parseTrailers : ℕ → PyVal → List Tok → Except PyErr (PyVal × List Tok)
  | 0, _, _ => .error .parseErr
  | n + 1, v, ts =>
      match ts with
      | .lpar :: .rpar :: _ => .error .typeErr
      | .lpar :: ts1 => do
          let (_, ts2) ← parseAExpr n ts1
          match ts2 with
          | .rpar :: _ => .error .typeErr
          | _ => .error .parseErr
      | _ => .ok (v, ts)

/-- `atom := NUMBER | '(' ')' | '(' a_expr ')'` — the empty parentheses are
the empty tuple. -/
def parseAtom : ℕ → List Tok → Except PyErr (PyVal × List Tok)
  | 0, _ => .error .parseErr
  | n + 1, ts =>
      match ts with
      | .num v :: ts1 => .ok (v, ts1)
      | .lpar :: .rpar :: ts1 => .ok (.vtuple, ts1)
      | .lpar :: ts1 => do
          let (v, ts2) ← parseAExpr n ts1
          match ts2 with
          | .rpar :: ts3 => .ok (v, ts3)
          | _ => .error .parseErr
      | _ => .error .parseErr

end

/-- `eval(expression, {"__builtins__": {}}, {})` on the restricted charset
(calculator_core.py line 57): tokenize, parse the whole token list as one
expression, require no trailing tokens.  The fuel `6 * (length + 1)` covers
the six grammar levels per consumed token; exhaustion (which does not occur
on well-formed input) is reported as a parse failure. -/
def pyEval (l : List Char) : Except PyErr PyVal := do
  let ts ← tokenize (l.length + 1) l
  let (v, rest) ← parseAExpr (6 * (ts.length + 1)) ts
  if rest.isEmpty then .ok v else .error .parseErr

/-- `Calculator._safe_eval` (calculator_core.py lines 46-59): the character
whitelist check raising `ValueError("Expression contains invalid
characters")`, then `eval` under a bare `except:` that converts ANY
exception into `ValueError("Invalid expression format")`. -/
def safe_eval (l : List Char) : Except EvalError PyVal :=
  if !charCheckOk l then .error .invalidChars
  else
    match pyEval l with
    | .ok v => .ok v
    | .error _ => .error .invalidFormat

/-- `Calculator.evaluate` (calculator_core.py lines 14-44): remove spaces
(only `' '`, not other whitespace), raise `ValueError("Empty expression")`
on an empty result, try the fast-path pattern — on a match check the
operator against the table, check a zero right divisor, apply the operator
and format (`int` if integral, else rounded to 10 places) — otherwise fall
through to `_safe_eval`, whose raw result is returned unformatted. -/
def evaluate (l : List Char) : Except EvalError PyVal :=
  let e := removeSpaces l
  if e.isEmpty then .error .emptyExpression
  else
    match fastMatch e with
    | some (a, op, b) =>
        if !isOpChar op then .error (.unsupportedOperator op)
        else
          let x := numLitVal a
          let y := numLitVal b
          if op = '/' && y = 0 then .error .divisionByZero
          else .ok (formatResult (applyFastOp op x y))
    | none => safe_eval e

end Calc

namespace Calc

/-! ## Character-class facts -/

lemma ws_cases {c : Char} (h : isWs c = true) :
    c = ' ' ∨ c = '\t' ∨ c = '\n' ∨ c = '\r' ∨ c = '\x0b' ∨ c = '\x0c' := by
  unfold isWs at h
  simp only [Bool.or_eq_true, decide_eq_true_iff] at h
  tauto

lemma op_cases {c : Char} (h : isOpChar c = true) :
    c = '+' ∨ c = '-' ∨ c = '*' ∨ c = '/' := by
  unfold isOpChar at h
  simp only [Bool.or_eq_true, decide_eq_true_iff] at h
  tauto

lemma exprChar_of_ws {c : Char} (h : isWs c = true) : isExprChar c = true := by
  unfold isExprChar
  simp [h]

lemma not_ws_of_digit {c : Char} (h : isDigit c = true) : isWs c = false := by
  cases hws : isWs c
  · rfl
  · rcases ws_cases hws with rfl | rfl | rfl | rfl | rfl | rfl <;> simp [isDigit] at h

lemma not_op_of_digit {c : Char} (h : isDigit c = true) : isOpChar c = false := by
  cases hop : isOpChar c
  · rfl
  · rcases op_cases hop with rfl | rfl | rfl | rfl <;> simp [isDigit] at h

/-! ## List helper lemmas -/

lemma dropWhile_all_false {p : Char → Bool} :
    ∀ {l : List Char}, (∀ c ∈ l, p c = false) → l.dropWhile p = l := by
  intro l h
  cases l with
  | nil => rfl
  | cons c t => simp [List.dropWhile_cons, h c (List.mem_cons_self c t)]

lemma head_dropWhile_false {p : Char → Bool} :
    ∀ {l : List Char} {c : Char} {t : List Char}, l.dropWhile p = c :: t → p c = false := by
  intro l
  induction l with
  | nil => intro c t h; simp [List.dropWhile] at h
  | cons a l ih =>
      intro c t h
      rw [List.dropWhile_cons] at h
      by_cases hp : p a
      · exact ih (by simpa [hp] using h)
      · simp only [hp, if_false] at h
        cases h
        simpa using hp

lemma mem_dropWhile_or {p : Char → Bool} {l : List Char} {c : Char} (h : c ∈ l) :
    c ∈ l.dropWhile p ∨ p c = true := by
  rcases List.mem_append.mp
      (by rw [List.takeWhile_append_dropWhile (p := p) (l := l)]; exact h) with h1 | h2
  · exact Or.inr (List.mem_takeWhile_imp h1)
  · exact Or.inl h2

lemma findIdx_append_first {p : Char → Bool} :
    ∀ {a : List Char} {x : Char} {b : List Char},
      (∀ c ∈ a, p c = false) → p x = true → (a ++ x :: b).findIdx p = a.length := by
  intro a
  induction a with
  | nil => intro x b _ hx; simp [List.findIdx_cons, hx]
  | cons c a ih =>
      intro x b ha hx
      rw [List.cons_append, List.findIdx_cons]
      have hc : p c = false := ha c (List.mem_cons_self c a)
      simp [hc, ih (fun d hd => ha d (List.mem_cons_of_mem _ hd)) hx]

/-! ## Facts about `pyStrip` and `removeSpaces` -/

lemma dropTrailWs_prefix (l : List Char) : dropTrailWs l <+: l := by
  have h : (l.reverse.dropWhile isWs).reverse <+: l.reverse.reverse :=
    List.reverse_prefix.mpr
      (show l.reverse.dropWhile isWs <:+ l.reverse from List.dropWhile_suffix isWs)
  simpa [dropTrailWs] using h

lemma pyStrip_head_not_ws {l : List Char} {c : Char} {t : List Char}
    (h : pyStrip l = c :: t) : isWs c = false := by
  obtain ⟨r, hr⟩ := dropTrailWs_prefix (dropLeadWs l)
  rw [show dropTrailWs (dropLeadWs l) = pyStrip l from rfl, h] at hr
  have h2 : dropLeadWs l = c :: (t ++ r) := by rw [← hr]; simp
  unfold dropLeadWs at h2
  exact head_dropWhile_false h2

lemma mem_pyStrip_or_ws {l : List Char} {c : Char} (h : c ∈ l) :
    c ∈ pyStrip l ∨ isWs c = true := by
  rcases mem_dropWhile_or (p := isWs) h with h1 | hw
  · rcases mem_dropWhile_or (p := isWs) (List.mem_reverse.mpr h1) with h2 | hw
    · exact Or.inl (List.mem_reverse.mpr h2)
    · exact Or.inr hw
  · exact Or.inr hw

lemma mem_of_mem_removeSpaces {l : List Char} {c : Char} (h : c ∈ removeSpaces l) :
    c ∈ l := List.mem_of_mem_filter h

lemma removeSpaces_ne_nil_of_head {c : Char} {t : List Char} (h : ¬c = ' ') :
    removeSpaces (c :: t) ≠ [] := by
  unfold removeSpaces
  rw [List.filter_cons]
  simp [h]

/-! ## Facts about the consecutive-operator regex -/

lemma altsAt_doubleMinus (t : List Char) : altsAt ('-' :: '-' :: t) = true := by
  cases t with
  | nil => decide
  | cons c3 r =>
      by_cases hd : isDigit c3 = true
      · simp [altsAt, minusRunThenDigit, hd]
      · simp [altsAt, minusRunThenDigit, hd]

lemma opRunBad_append_left {v : List Char} (u : List Char) (h : opRunBad v = true) :
    opRunBad (u ++ v) = true := by
  induction u with
  | nil => simpa
  | cons c u ih => simp [opRunBad, ih]

lemma opRunBad_of_doubleMinus {l : List Char} (h : ['-', '-'] <:+: l) :
    opRunBad l = true := by
  obtain ⟨s, t, hst⟩ := h
  rw [← hst, List.append_assoc]
  apply opRunBad_append_left
  show opRunBad ('-' :: '-' :: t) = true
  simp [opRunBad, altsAt_doubleMinus]

/-! ## Totality of the validator -/

lemma hasInvalidShape_isSome {e : List Char} (h : removeSpaces e ≠ []) :
    (hasInvalidShape e).isSome = true := by
  simp only [hasInvalidShape]
  by_cases hop : opRunBad (removeSpaces e) = true
  · simp [hop]
  · obtain ⟨c, t, hct⟩ := List.exists_cons_of_ne_nil h
    rw [hct] at hop ⊢
    rw [Bool.not_eq_true] at hop
    simp only [hop, Bool.false_eq_true, if_false]
    cases hgl : (c :: t).getLast? with
    | none => exact absurd (List.getLast?_eq_none_iff.mp hgl) (by simp)
    | some cl =>
        simp only [List.head?_cons]
        split_ifs <;> simp

lemma charCheck_stripped_despaced_ne_nil {l : List Char}
    (h : charCheckOk (pyStrip l) = true) : removeSpaces (pyStrip l) ≠ [] := by
  have hne : pyStrip l ≠ [] := by
    intro hn
    rw [hn] at h
    simp [charCheckOk] at h
  obtain ⟨c, t, hct⟩ := List.exists_cons_of_ne_nil hne
  have hws : isWs c = false := pyStrip_head_not_ws hct
  have hcs : ¬c = ' ' := by
    intro hsp
    rw [hsp] at hws
    simp [isWs] at hws
  rw [hct]
  exact removeSpaces_ne_nil_of_head hcs

end Calc

namespace Calc

/-! ## Case analysis of the evaluator -/

lemma safe_eval_cases (l : List Char) :
    safe_eval l = .error .invalidChars ∨ safe_eval l = .error .invalidFormat ∨
      ∃ v, safe_eval l = .ok v := by
  cases h : charCheckOk l with
  | false => exact Or.inl (by simp [safe_eval, h])
  | true =>
      cases hp : pyEval l with
      | ok v => exact Or.inr (Or.inr ⟨v, by simp [safe_eval, h, hp]⟩)
      | error e => exact Or.inr (Or.inl (by simp [safe_eval, h, hp]))

lemma evaluate_empty {l : List Char} (h : removeSpaces l = []) :
    evaluate l = .error .emptyExpression := by
  simp [evaluate, h]

lemma evaluate_general {l : List Char} (h0 : removeSpaces l ≠ [])
    (h : fastMatch (removeSpaces l) = none) :
    evaluate l = safe_eval (removeSpaces l) := by
  simp only [evaluate]
  rw [if_neg (by simpa [List.isEmpty_iff] using h0), h]

lemma coreMatch_props {l a b : List Char} {op : Char}
    (h : coreMatch l = some (a, op, b)) :
    isOpChar op = true ∧ isNumLit a = true ∧ isNumLit b = true := by
  simp only [coreMatch] at h
  split at h
  next op' heq =>
      split at h
      next hcond =>
          rw [Bool.and_eq_true] at hcond
          obtain ⟨h1, h2⟩ := hcond
          injection h with h3
          injection h3 with hA h4
          injection h4 with hOp hB
          subst hA
          subst hOp
          subst hB
          exact ⟨(List.mem_filter.mp
            (by rw [heq]; exact List.mem_singleton.mpr rfl)).2, h1, h2⟩
      next => exact absurd h (by simp)
  next => exact absurd h (by simp)

end Calc

namespace Calc

lemma fastMatch_props {l a b : List Char} {op : Char}
    (h : fastMatch l = some (a, op, b)) :
    isOpChar op = true ∧ isNumLit a = true ∧ isNumLit b = true := by
  simp only [fastMatch] at h
  split at h
  next r hc =>
      injection h with h1
      subst h1
      exact coreMatch_props hc
  next hc =>
      split at h
      next => exact coreMatch_props h
      next => exact absurd h (by simp)

lemma fastMatch_ne_nil {a b : List Char} {op : Char}
    (h : fastMatch [] = some (a, op, b)) : False := by
  simp [fastMatch, coreMatch] at h

lemma evaluate_fast_ok {l a b : List Char} {op : Char}
    (h : fastMatch (removeSpaces l) = some (a, op, b))
    (hnd : ¬(op = '/' ∧ numLitVal b = 0)) :
    evaluate l = .ok (formatResult (applyFastOp op (numLitVal a) (numLitVal b))) := by
  have hne : removeSpaces l ≠ [] := by
    intro hn
    rw [hn] at h
    exact fastMatch_ne_nil h
  obtain ⟨hop, ha, hb⟩ := fastMatch_props h
  simp only [evaluate]
  rw [if_neg (by simpa [List.isEmpty_iff] using hne), h]
  simp [hop, hnd]

lemma evaluate_fast_div0 {l a b : List Char}
    (h : fastMatch (removeSpaces l) = some (a, '/', b)) (hb : numLitVal b = 0) :
    evaluate l = .error .divisionByZero := by
  have hne : removeSpaces l ≠ [] := by
    intro hn
    rw [hn] at h
    exact fastMatch_ne_nil h
  obtain ⟨hop, _, _⟩ := fastMatch_props h
  simp only [evaluate]
  rw [if_neg (by simpa [List.isEmpty_iff] using hne), h]
  simp [hop, hb]

lemma formatResult_isNumeric (q : ℚ) : (formatResult q).isNumeric = true := by
  unfold formatResult
  split <;> rfl

end Calc

namespace Calc

/-! ## Building a fast-path match from numeric-literal operands -/

lemma numLit_chars {l : List Char} (h : isNumLit l = true) :
    ∀ c ∈ l, isDigit c = true ∨ c = '.' := by
  intro c hc
  rcases mem_dropWhile_or (p := isDigit) hc with h1 | h2
  · cases hd : l.dropWhile isDigit with
    | nil => rw [hd] at h1; cases h1
    | cons d r =>
        rw [hd] at h1
        unfold isNumLit at h
        rw [hd] at h
        by_cases hdd : d = '.'
        · subst hdd
          rcases List.mem_cons.mp h1 with rfl | hmem
          · exact Or.inr rfl
          · simp only [Bool.and_eq_true, List.all_eq_true] at h
            exact Or.inl (h.2 c hmem)
        · exact absurd h (by simp [hdd])
  · exact Or.inl h2

lemma numLit_not_ws {l : List Char} (h : isNumLit l = true) :
    ∀ c ∈ l, isWs c = false := by
  intro c hc
  rcases numLit_chars h c hc with hd | rfl
  · exact not_ws_of_digit hd
  · decide

lemma numLit_not_op {l : List Char} (h : isNumLit l = true) :
    ∀ c ∈ l, isOpChar c = false := by
  intro c hc
  rcases numLit_chars h c hc with hd | rfl
  · exact not_op_of_digit hd
  · decide

lemma numLit_not_space {l : List Char} (h : isNumLit l = true) :
    ∀ c ∈ l, ¬c = ' ' := by
  intro c hc hsp
  have := numLit_not_ws h c hc
  rw [hsp] at this
  simp [isWs] at this

lemma op_not_space {op : Char} (hop : isOpChar op = true) : ¬op = ' ' := by
  rcases op_cases hop with rfl | rfl | rfl | rfl <;> decide

lemma dropTrailWs_of_no_ws {l : List Char} (h : ∀ c ∈ l, isWs c = false) :
    dropTrailWs l = l := by
  unfold dropTrailWs
  rw [dropWhile_all_false (fun c hc => h c (List.mem_reverse.mp hc)), List.reverse_reverse]

lemma removeSpaces_build {a b : List Char} {op : Char}
    (ha : isNumLit a = true) (hb : isNumLit b = true) (hop : isOpChar op = true) :
    removeSpaces (a ++ ' ' :: op :: ' ' :: b) = a ++ op :: b := by
  unfold removeSpaces
  rw [List.filter_append]
  rw [List.filter_eq_self.mpr (fun c hc => by simp [numLit_not_space ha c hc])]
  rw [List.filter_cons, List.filter_cons, List.filter_cons]
  simp only [decide_not, Bool.not_eq_eq_eq_not, Bool.not_true, decide_eq_false_iff_not,
    decide_True, Bool.not_false]
  rw [List.filter_eq_self.mpr (fun c hc => by simp [numLit_not_space hb c hc])]
  simp [op_not_space hop]

lemma coreMatch_build {a b : List Char} {op : Char}
    (ha : isNumLit a = true) (hb : isNumLit b = true) (hop : isOpChar op = true) :
    coreMatch (a ++ op :: b) = some (a, op, b) := by
  have hfa : a.filter isOpChar = [] :=
    List.filter_eq_nil_iff.mpr (fun c hc => by simp [numLit_not_op ha c hc])
  have hfb : b.filter isOpChar = [] :=
    List.filter_eq_nil_iff.mpr (fun c hc => by simp [numLit_not_op hb c hc])
  have hfilter : (a ++ op :: b).filter isOpChar = [op] := by
    rw [List.filter_append, hfa, List.filter_cons]
    simp [hop, hfb]
  have hidx : (a ++ op :: b).findIdx isOpChar = a.length :=
    findIdx_append_first (fun c hc => numLit_not_op ha c hc) hop
  have htake : (a ++ op :: b).take a.length = a := List.take_left a (op :: b)
  have hdrop : (a ++ op :: b).drop (a.length + 1) = b := by
    have h1 : (a ++ op :: b) = (a ++ [op]) ++ b := by simp
    have h2 : a.length + 1 = (a ++ [op]).length := by simp
    rw [h1, h2]
    exact List.drop_left (a ++ [op]) b
  simp only [coreMatch, hfilter, hidx, htake, hdrop]
  rw [dropTrailWs_of_no_ws (numLit_not_ws ha)]
  rw [show dropLeadWs b = b from dropWhile_all_false (numLit_not_ws hb)]
  simp [ha, hb]

lemma fastMatch_build {a b : List Char} {op : Char}
    (ha : isNumLit a = true) (hb : isNumLit b = true) (hop : isOpChar op = true) :
    fastMatch (a ++ op :: b) = some (a, op, b) := by
  simp [fastMatch, coreMatch_build ha hb hop]

end Calc

namespace Calc

/-! ## Claim theorems -/

/-- **C10** `validate_expression` is total and exception-free: on every
input — any string, or a non-string (`none`) value — it returns a Boolean
and never raises.  In particular the `expression[0]` / `expression[-1]`
accesses in the syntax check never hit an empty string, because an input
that strips to empty has already failed the character-set check (whose
regex requires at least one character), and the stripped string's first
character is not a space, so it survives the internal space-removal. -/
theorem validateAny_total (x : Option (List Char)) : (validateAny x).isSome = true := by
  cases x with
  | none => rfl
  | some l =>
      show (validate_expression l).isSome = true
      simp only [validate_expression]
      by_cases h0 : l.isEmpty = true
      · simp [h0]
      · rw [if_neg h0]
        by_cases hc : charCheckOk (pyStrip l) = true
        · have h1 := hasInvalidShape_isSome (charCheck_stripped_despaced_ne_nil hc)
          cases h2 : hasInvalidShape (pyStrip l) with
          | none => rw [h2] at h1; simp at h1
          | some b => cases b <;> simp [hc, h2]
        · rw [Bool.not_eq_true] at hc
          simp [hc]

/-- **C6 (counterexample)** The claim says a run of two or more `-`
immediately followed by a digit is accepted.  `"--5"` is such a string and
passes every other check (no `[+*/]` pair, first char `'-'` not in `+*/`,
last char `'5'` not an operator, no double decimal point, balanced
parentheses), yet `validate` rejects it: the third regex alternative
`-{2,}(?=\d)` itself flags a run of `-` before a digit. -/
theorem doubleMinus_before_digit_cex :
    validate (pyStr "--5") = false ∧ opRunBad (pyStr "--5") = true ∧
    isOpPSS '-' = false ∧ isOpChar '5' = false ∧
    decimalBad (pyStr "--5") = false ∧
    (pyStr "--5").count '(' = (pyStr "--5").count ')' := by
  decide

/-- **C6 (amended)** In `_has_invalid_syntax`, any two adjacent `-` in the
space-stripped expression make validation fail, whether or not a digit
follows: the alternative `--+(?!\d)` flags a run not followed by a digit
(a longer run satisfies the lookahead already at two characters, since `-`
is not a digit) and `-{2,}(?=\d)` flags a run followed by a digit, so the
two alternatives together cover every `--`. -/
theorem doubleMinus_always_invalid (l : List Char)
    (h : ['-', '-'] <:+: removeSpaces (pyStrip l)) : validate l = false := by
  have hop := opRunBad_of_doubleMinus h
  unfold validate
  simp only [validate_expression]
  by_cases h0 : l.isEmpty = true
  · simp [h0]
  · rw [if_neg h0]
    by_cases hc : charCheckOk (pyStrip l) = true
    · have hshape : hasInvalidShape (pyStrip l) = some true := by
        simp [hasInvalidShape, hop]
      simp [hc, hshape]
    · rw [Bool.not_eq_true] at hc
      simp [hc]

/-- Witness for the amended C6 at `"3 - -2"`: the space-stripped form
`3--2` contains `--`, so validation fails. -/
theorem doubleMinus_always_invalid_w : validate (pyStr "3 - -2") = false :=
  doubleMinus_always_invalid (pyStr "3 - -2") ⟨['3'], ['2'], by decide⟩

/-- **C9** On the fast path, a matched `"<a> / <b>"` whose right operand
has value exactly zero makes `evaluate` fail with `DivisionByZero`
(calculator_core.py lines 35-36). -/
theorem fast_div_by_zero (l a b : List Char)
    (h : fastMatch (removeSpaces l) = some (a, '/', b)) (hb : numLitVal b = 0) :
    evaluate l = .error .divisionByZero :=
  evaluate_fast_div0 h hb

/-- Witness for C9: `evaluate("10 / 0")` fails with `DivisionByZero`. -/
theorem fast_div_by_zero_w : evaluate (pyStr "10 / 0") = .error .divisionByZero :=
  fast_div_by_zero (pyStr "10 / 0") (pyStr "10") (pyStr "0") (by decide) (by decide)

end Calc

namespace Calc

/-- Equality of evaluator outcomes is decidable, so concrete runs can be
checked by `decide`. -/
instance : DecidableEq (Except EvalError PyVal) := fun x y =>
  match x, y with
  | .ok a, .ok b =>
      if h : a = b then .isTrue (by rw [h])
      else .isFalse (by intro hc; cases hc; exact h rfl)
  | .error a, .error b =>
      if h : a = b then .isTrue (by rw [h])
      else .isFalse (by intro hc; cases hc; exact h rfl)
  | .ok _, .error _ => .isFalse (by intro hc; cases hc)
  | .error _, .ok _ => .isFalse (by intro hc; cases hc)

/-- **C1 (counterexample)** `")("` is accepted by the validator (its
parenthesis check only compares counts, not nesting), but `eval` cannot
parse it, so `evaluate` fails with the `InvalidFormat`-kind error — the
round-trip property fails. -/
theorem validated_but_invalidFormat_cex :
    validate (pyStr ")(") = true ∧
    evaluate (pyStr ")(") = .error .invalidFormat ∧
    EvalError.invalidFormat.kind = ErrKind.invalidFormat := by
  decide

/-- **C1 (amended)** The validator's *character* rule is consistent with
the evaluator's: an expression `validate` accepts never fails `_safe_eval`'s
character check (`invalidChars`).  It can still fail with the parse-failure
`InvalidFormat` — the validator's shape rules are weaker than the
evaluation grammar (e.g. `")("`). -/
theorem validated_never_invalidChars (l : List Char) (h : validate l = true) :
    evaluate l ≠ .error .invalidChars := by
  have hsome : validate_expression l = some true := by
    unfold validate at h
    cases hv : validate_expression l with
    | none => rw [hv] at h; simp at h
    | some b => rw [hv] at h; simp at h; rw [h]
  have hcc : charCheckOk (pyStrip l) = true := by
    by_contra hcf
    rw [Bool.not_eq_true] at hcf
    simp only [validate_expression] at hsome
    by_cases h0 : l.isEmpty = true
    · rw [if_pos h0] at hsome; simp at hsome
    · rw [if_neg h0] at hsome
      rw [hcf] at hsome
      simp at hsome
  have hall : ∀ c ∈ pyStrip l, isExprChar c = true := by
    have h2 := hcc
    rw [charCheckOk, Bool.and_eq_true] at h2
    exact fun c hc => List.all_eq_true.mp h2.2 c hc
  have hchars : ∀ c ∈ l, isExprChar c = true := fun c hc =>
    (mem_pyStrip_or_ws hc).elim (fun h1 => hall c h1) exprChar_of_ws
  by_cases he : removeSpaces l = []
  · rw [evaluate_empty he]; simp
  · cases hf : fastMatch (removeSpaces l) with
    | some r =>
        obtain ⟨a, op, b⟩ := r
        by_cases hdiv : op = '/' ∧ numLitVal b = 0
        · obtain ⟨rfl, hb0⟩ := hdiv
          rw [evaluate_fast_div0 hf hb0]
          simp
        · rw [evaluate_fast_ok hf hdiv]
          simp
    | none =>
        rw [evaluate_general he hf]
        have hcc2 : charCheckOk (removeSpaces l) = true := by
          rw [charCheckOk, Bool.and_eq_true]
          refine ⟨?_, List.all_eq_true.mpr
            (fun c hc => hchars c (mem_of_mem_removeSpaces hc))⟩
          cases hrem : removeSpaces l with
          | nil => exact absurd hrem he
          | cons c t => rfl
        unfold safe_eval
        rw [hcc2]
        simp only [Bool.not_true, Bool.false_eq_true, if_false]
        cases pyEval (removeSpaces l) <;> simp

/-- Witness for the amended C1 at `"(1 + 2)"`, a validated expression. -/
theorem validated_never_invalidChars_w :
    evaluate (pyStr "(1 + 2)") ≠ .error .invalidChars :=
  validated_never_invalidChars (pyStr "(1 + 2)") (by decide)

end Calc

namespace Calc

/-- **C2 (counterexample)** `evaluate("()")` succeeds and returns the empty
tuple — a non-numeric value — because the general path hands back `eval`'s
result unchanged. -/
theorem empty_tuple_result_cex :
    evaluate (pyStr "()") = .ok .vtuple ∧ PyVal.isNumeric .vtuple = false := by
  decide

/-- **C2 (amended)** `evaluate` never signals an error outside the spec's
four-kind taxonomy — in the model every escaping exception is one of the
five `EvalError`s, whose kinds are the four of the taxonomy; in particular
the defensive `UnsupportedOperator` is indeed unreachable, because the
fast-path pattern only produces the four supported operator characters.
Every fast-path success is numeric.  General-path successes, however, may
be non-numeric (see the counterexample). -/
theorem evaluate_taxonomy (l : List Char) :
    (∀ c : Char, evaluate l ≠ .error (.unsupportedOperator c)) ∧
    (∀ (a b : List Char) (op : Char) (v : PyVal),
        fastMatch (removeSpaces l) = some (a, op, b) → evaluate l = .ok v →
        v.isNumeric = true) := by
  constructor
  · intro c
    by_cases he : removeSpaces l = []
    · rw [evaluate_empty he]; simp
    · cases hf : fastMatch (removeSpaces l) with
      | some r =>
          obtain ⟨a, op, b⟩ := r
          by_cases hdiv : op = '/' ∧ numLitVal b = 0
          · obtain ⟨rfl, hb0⟩ := hdiv
            rw [evaluate_fast_div0 hf hb0]
            simp
          · rw [evaluate_fast_ok hf hdiv]
            simp
      | none =>
          rw [evaluate_general he hf]
          rcases safe_eval_cases (removeSpaces l) with h1 | h1 | ⟨v, h1⟩ <;>
            rw [h1] <;> simp
  · intro a b op v hf hok
    by_cases hdiv : op = '/' ∧ numLitVal b = 0
    · obtain ⟨rfl, hb0⟩ := hdiv
      rw [evaluate_fast_div0 hf hb0] at hok
      simp at hok
    · rw [evaluate_fast_ok hf hdiv] at hok
      injection hok with hv
      rw [← hv]
      exact formatResult_isNumeric _

/-- Witness for the amended C2 at `"4 / 2"`. -/
theorem evaluate_taxonomy_w :
    evaluate (pyStr "4 / 2") ≠ .error (.unsupportedOperator '/') :=
  (evaluate_taxonomy (pyStr "4 / 2")).1 '/'

/-- **C3 (counterexample)** `"(1)/0"` takes the general path (the
parenthesis prevents a fast-path match) and divides by exact zero, yet
`evaluate` fails with `InvalidFormat`, not `DivisionByZero`: the bare
`except:` of `_safe_eval` swallows the `ZeroDivisionError`. -/
theorem general_div_zero_invalidFormat_cex :
    evaluate (pyStr "(1)/0") = .error .invalidFormat ∧
    EvalError.invalidFormat ≠ EvalError.divisionByZero := by
  decide

/-- **C3 (amended)** On the general path, `evaluate` can never fail with
`DivisionByZero`: `_safe_eval` raises only the invalid-characters error or
(via its blanket `except:`) the invalid-format error.  A `DivisionByZero`
can arise only on the fast path. -/
theorem general_path_no_divisionByZero (l : List Char)
    (h : fastMatch (removeSpaces l) = none) :
    evaluate l ≠ .error .divisionByZero := by
  by_cases he : removeSpaces l = []
  · rw [evaluate_empty he]; simp
  · rw [evaluate_general he h]
    rcases safe_eval_cases (removeSpaces l) with h1 | h1 | ⟨v, h1⟩ <;>
      rw [h1] <;> simp

/-- Witness for the amended C3 at `"(1)/0"`. -/
theorem general_path_no_divisionByZero_w :
    evaluate (pyStr "(1)/0") ≠ .error .divisionByZero :=
  general_path_no_divisionByZero (pyStr "(1)/0") (by decide)

/-- **C4 (counterexample)** `evaluate("(4)/2")` takes the general path and
returns the raw `eval` value `2.0` — a float with integral value — instead
of collapsing it to the integer `2` as the fast path would: result
formatting is NOT identical in both paths. -/
theorem general_path_unformatted_cex :
    evaluate (pyStr "(4)/2") = .ok (.vfloat 2) ∧
    PyVal.vfloat 2 ≠ PyVal.vint 2 := by
  with_unfolding_all decide

/-- **C4 (amended)** Result formatting (integral collapse, rounding to 10
places) happens only on the fast path: a fast-path success is always
`formatResult` of the operator applied to the operands, while on the
general path `evaluate` returns `_safe_eval`'s outcome unchanged, with no
formatting applied. -/
theorem formatting_fast_path_only :
    (∀ (l a b : List Char) (op : Char),
        fastMatch (removeSpaces l) = some (a, op, b) →
        ¬(op = '/' ∧ numLitVal b = 0) →
        evaluate l = .ok (formatResult (applyFastOp op (numLitVal a) (numLitVal b)))) ∧
    (∀ l : List Char, removeSpaces l ≠ [] → fastMatch (removeSpaces l) = none →
        evaluate l = safe_eval (removeSpaces l)) :=
  ⟨fun _ _ _ _ hf hnd => evaluate_fast_ok hf hnd,
   fun _ h0 hf => evaluate_general h0 hf⟩

/-- Witness for the amended C4: `"(4)/2"` goes through the general path
unformatted. -/
theorem formatting_fast_path_only_w :
    evaluate (pyStr "(4)/2") = safe_eval (removeSpaces (pyStr "(4)/2")) :=
  formatting_fast_path_only.2 (pyStr "(4)/2") (by decide) (by decide)

lemma floor_third_e10 : ⌊(1 / 3 : ℚ) * 10 ^ 10⌋ = 3333333333 := by
  rw [Int.floor_eq_iff]
  constructor <;> norm_num

lemma pyRound10_third : pyRound10 (1 / 3) = 3333333333 / 10000000000 := by
  simp only [pyRound10, roundHalfEven, floor_third_e10]
  norm_num

/-- **C5 (counterexample)** `evaluate("1 / 3")` returns `0.3333333333`
(the exact quotient rounded to 10 fractional digits), which is NOT equal
to the exact mathematical value `1/3`. -/
theorem fast_value_rounded_cex :
    evaluate (pyStr "1 / 3") = .ok (.vfloat (3333333333 / 10000000000)) ∧
    (3333333333 / 10000000000 : ℚ) ≠ 1 / 3 := by
  constructor
  · have h := evaluate_fast_ok
      (show fastMatch (removeSpaces (pyStr "1 / 3")) = some (['1'], '/', ['3']) by decide)
      (by decide)
    rw [h]
    have h1 : numLitVal ['1'] = 1 := by decide
    have h3 : numLitVal ['3'] = 3 := by decide
    rw [h1, h3]
    have h4 : applyFastOp '/' 1 3 = 1 / 3 := by
      simp only [applyFastOp]
      rw [if_neg (by decide), if_neg (by decide), if_neg (by decide)]
    rw [h4]
    simp only [formatResult]
    rw [if_neg (by with_unfolding_all decide), pyRound10_third]
  · norm_num

/-- **C5 (amended)** For every two-operand expression `"<a> <op> <b>"`
with sign-less decimal-literal operands, a supported operator, and a
nonzero right operand when dividing, `evaluate` succeeds with the exact
rational value of `a op b` formatted: represented as an integer exactly
when the exact value is integral, and otherwise rounded (half-to-even) to
10 fractional digits — so it equals the exact value whenever that value
fits in 10 fractional digits, but not in general (see counterexample). -/
theorem fast_exact_value (a b : List Char) (op : Char)
    (ha : isNumLit a = true) (hb : isNumLit b = true) (hop : isOpChar op = true)
    (hnd : ¬(op = '/' ∧ numLitVal b = 0)) :
    evaluate (a ++ ' ' :: op :: ' ' :: b) =
      .ok (formatResult (applyFastOp op (numLitVal a) (numLitVal b))) ∧
    ((applyFastOp op (numLitVal a) (numLitVal b)).den = 1 →
      formatResult (applyFastOp op (numLitVal a) (numLitVal b)) =
        .vint (applyFastOp op (numLitVal a) (numLitVal b)).num) := by
  constructor
  · apply evaluate_fast_ok _ hnd
    rw [removeSpaces_build ha hb hop]
    exact fastMatch_build ha hb hop
  · intro hden
    unfold formatResult
    rw [if_pos hden]

/-- Witness for the amended C5: `"2.5 + 1.5"` evaluates to the formatted
exact value (the integer 4). -/
theorem fast_exact_value_w :
    evaluate (pyStr "2.5" ++ ' ' :: '+' :: ' ' :: pyStr "1.5") =
      .ok (formatResult (applyFastOp '+' (numLitVal (pyStr "2.5"))
        (numLitVal (pyStr "1.5")))) :=
  (fast_exact_value (pyStr "2.5") (pyStr "1.5") '+'
    (by decide) (by decide) (by decide) (by decide)).1

/-- **C7 (counterexample)** The claim says `evaluate("2 + + 3")` fails.
It does not: the fast-path pattern rejects it, but Python `eval` parses
the second `+` as a unary sign and returns `5`. -/
theorem consecutive_plus_evaluates_cex :
    evaluate (pyStr "2 + + 3") = .ok (.vint 5) := by
  decide

/-- **C7 (amended)** `validate("2 + + 3")` is false (the consecutive
operator regex `[+\*/]{2,}` flags `++` after space removal), but
`Calculator.evaluate("2 + + 3")` on its own succeeds with `5`, the second
`+` acting as a unary sign on the general path; the input is rejected in
the application only because the API layer validates before evaluating. -/
theorem consecutive_plus_validate_evaluate :
    validate (pyStr "2 + + 3") = false ∧
    evaluate (pyStr "2 + + 3") = .ok (.vint 5) := by
  decide

/-- **C8 (counterexample)** `"\t"` consists only of whitespace, but
`evaluate` strips only spaces, so the tab survives, the fast path fails,
and `eval` raises a syntax error: the result is `InvalidFormat`, not
`EmptyExpression`. -/
theorem tab_not_emptyExpression_cex :
    evaluate (pyStr "\t") = .error .invalidFormat ∧
    EvalError.invalidFormat ≠ EvalError.emptyExpression := by
  decide

/-- **C8 (amended)** `evaluate` removes space characters (`' '`) only —
not all whitespace — and fails with `EmptyExpression` exactly when the
space-stripped input is empty; so the empty string and all-space inputs
give `EmptyExpression`, while whitespace-only inputs containing tabs or
newlines fail with `InvalidFormat` instead.  `validate("")` and
`validate` of a non-string input return false. -/
theorem emptyExpression_iff_spaces_only :
    (∀ l : List Char, evaluate l = .error .emptyExpression ↔ removeSpaces l = []) ∧
    validate (pyStr "") = false ∧ validateAny none = some false := by
  refine ⟨fun l => ⟨?_, evaluate_empty⟩, by decide, rfl⟩
  intro h
  by_contra he
  cases hf : fastMatch (removeSpaces l) with
  | some r =>
      obtain ⟨a, op, b⟩ := r
      by_cases hdiv : op = '/' ∧ numLitVal b = 0
      · obtain ⟨rfl, hb0⟩ := hdiv
        rw [evaluate_fast_div0 hf hb0] at h
        simp at h
      · rw [evaluate_fast_ok hf hdiv] at h
        simp at h
  | none =>
      rw [evaluate_general he hf] at h
      rcases safe_eval_cases (removeSpaces l) with h1 | h1 | ⟨v, h1⟩ <;>
        rw [h1] at h <;> simp at h

/-- Witness for the amended C8: an all-space input gives `EmptyExpression`. -/
theorem emptyExpression_iff_spaces_only_w :
    evaluate (pyStr "   ") = .error .emptyExpression :=
  (emptyExpression_iff_spaces_only.1 (pyStr "   ")).mpr (by decide)

end Calc
